import Mathlib

/-!
Verification of the super-bot event-loop core against its specification.

The development shallowly embeds the Go sources:
  * `events` package (TelegramListener: transform, sendBotResponse,
    saveBotMessage, getBanUsername, the lazy channel init, the select loop)
  * `openai` package (LimitedMessageHistory, in both its per-conversation
    and its legacy global variant)

Go machine integers are modelled as `Int` (no arithmetic here ever nears
the 64-bit range), Go `nil` pointers as `Option`, Go slices as `List`
(conflating nil and empty slices except where the code distinguishes them,
in which case `Option (List _)` is used), and Go `time.Duration` as `Int`
nanoseconds.  A Go `panic` (nil-pointer dereference) is modelled as an
`Option.none` result.
-/

namespace SuperBot

/-! ## Wire (telegram-bot-api) data model — only the fields the listener reads -/

/-- tbapi.User: fields read by `transform` / `transformEntities`. -/
structure TgUser where
  ID : Int
  UserName : String
  FirstName : String
  LastName : String
deriving Repr, DecidableEq

/-- tbapi.Chat: fields read by the listener loop and `transform`.
`ChatType` embeds the Go field `Type`. -/
structure TgChat where
  ID : Int
  ChatType : String
deriving Repr, DecidableEq

/-- tbapi.Chat in `SenderChat` position: only ID and UserName are read. -/
structure TgSenderChat where
  ID : Int
  UserName : String
deriving Repr, DecidableEq

/-- tbapi.MessageEntity: fields read by `transformEntities`.
`EntityType` embeds the Go field `Type`. -/
structure TgMessageEntity where
  EntityType : String
  Offset : Int
  Length : Int
  URL : String
  User : Option TgUser
deriving Repr, DecidableEq

/-- tbapi.PhotoSize: fields read by `transform`. -/
structure TgPhotoSize where
  FileID : String
  Width : Int
  Height : Int
deriving Repr, DecidableEq

/-- tbapi.Message, recursive through `ReplyToMessage`.  `Date` stands for
the unix timestamp that `msg.Time()` converts; absent optional fields are
`none` (nil pointer) or `[]` (nil slice). -/
inductive TgMessage where
  | mk (MessageID : Int) (Date : Int) (Text : String)
       (Chat : TgChat) (MessageThreadID : Int)
       (From : Option TgUser) (SenderChat : Option TgSenderChat)
       (Entities : List TgMessageEntity) (Photo : List TgPhotoSize)
       (Caption : String) (CaptionEntities : List TgMessageEntity)
       (ReplyToMessage : Option TgMessage)
deriving Repr

def TgMessage.MessageID : TgMessage → Int
  | .mk v _ _ _ _ _ _ _ _ _ _ _ => v

def TgMessage.Date : TgMessage → Int
  | .mk _ v _ _ _ _ _ _ _ _ _ _ => v

def TgMessage.Text : TgMessage → String
  | .mk _ _ v _ _ _ _ _ _ _ _ _ => v

def TgMessage.Chat : TgMessage → TgChat
  | .mk _ _ _ v _ _ _ _ _ _ _ _ => v

def TgMessage.MessageThreadID : TgMessage → Int
  | .mk _ _ _ _ v _ _ _ _ _ _ _ => v

def TgMessage.From : TgMessage → Option TgUser
  | .mk _ _ _ _ _ v _ _ _ _ _ _ => v

def TgMessage.SenderChat : TgMessage → Option TgSenderChat
  | .mk _ _ _ _ _ _ v _ _ _ _ _ => v

def TgMessage.Entities : TgMessage → List TgMessageEntity
  | .mk _ _ _ _ _ _ _ v _ _ _ _ => v

def TgMessage.Photo : TgMessage → List TgPhotoSize
  | .mk _ _ _ _ _ _ _ _ v _ _ _ => v

def TgMessage.Caption : TgMessage → String
  | .mk _ _ _ _ _ _ _ _ _ v _ _ => v

def TgMessage.CaptionEntities : TgMessage → List TgMessageEntity
  | .mk _ _ _ _ _ _ _ _ _ _ v _ => v

def TgMessage.ReplyToMessage : TgMessage → Option TgMessage
  | .mk _ _ _ _ _ _ _ _ _ _ _ v => v

/-! ## Internal (bot package) data model

The `bot` package declaration file is not under src/; the field sets below
are reconstructed from the assignments the listener makes in `transform`,
`getBanUsername` and `sendBotResponse`, and from the data-model section of
the spec (InternalMessage / Response).  Go zero values are made explicit
(`User.zero`, etc.) because `transform` builds `bot.Message` by struct
literal, leaving unassigned fields at their zero value. -/

/-- bot.User. -/
structure User where
  ID : Int
  Username : String
  DisplayName : String
deriving Repr, DecidableEq

def User.zero : User := { ID := 0, Username := "", DisplayName := "" }

/-- bot.SenderChat. -/
structure SenderChat where
  ID : Int
  UserName : String
deriving Repr, DecidableEq

def SenderChat.zero : SenderChat := { ID := 0, UserName := "" }

/-- bot.Entity. -/
structure Entity where
  EntityType : String
  Offset : Int
  Length : Int
  URL : String
  User : Option User
deriving Repr, DecidableEq

/-- bot.Image. `Entities` is a `*[]bot.Entity` in Go, hence
`Option (List Entity)` here (nil pointer vs present slice). -/
structure Image where
  FileID : String
  Width : Int
  Height : Int
  Caption : String
  Entities : Option (List Entity)
deriving Repr, DecidableEq

/-- The replied-to summary embedded in bot.Message (fields assigned at the
end of `transform`). -/
structure ReplySummary where
  Text : String
  Sent : Int
  From : User
  SenderChat : SenderChat
deriving Repr, DecidableEq

def ReplySummary.zero : ReplySummary :=
  { Text := "", Sent := 0, From := User.zero, SenderChat := SenderChat.zero }

/-- bot.Message, the InternalMessage of the spec.  `Entities` is a
`*[]bot.Entity` in Go (nil pointer when no spans), hence
`Option (List Entity)`. -/
structure Message where
  ID : Int
  ChatID : String
  Sent : Int
  Text : String
  From : User
  SenderChat : SenderChat
  Entities : Option (List Entity)
  Image : Option Image
  ReplyTo : ReplySummary
deriving Repr, DecidableEq

def Message.zero : Message :=
  { ID := 0, ChatID := "", Sent := 0, Text := "", From := User.zero,
    SenderChat := SenderChat.zero, Entities := none, Image := none,
    ReplyTo := ReplySummary.zero }

/-- bot.Response: fields read by `sendBotResponse`, `getBanUsername` and
set by `Submit`/`SubmitHTML`; field set per the data-model section of the
spec. -/
structure Response where
  Text : String
  Send : Bool
  Pin : Bool
  Preview : Bool
  ReplyTo : Int
  ParseMode : String
  User : User
  ChannelID : Int
  BanInterval : Int
deriving Repr, DecidableEq

def Response.zero : Response :=
  { Text := "", Send := false, Pin := false, Preview := false, ReplyTo := 0,
    ParseMode := "", User := User.zero, ChannelID := 0, BanInterval := 0 }

/-! ## Bounded history buffer, per-conversation variant
(src/app/bot/openai/openaihistory.go) -/

namespace PerChat

/-- ChatHistory from openaihistory.go. -/
structure ChatHistory where
  count : Int
  messages : List Message

/-- LimitedMessageHistory keyed per conversation; the Go map is modelled
as a function to `Option` (nil map entry = `none`). -/
structure LimitedMessageHistory where
  limit : Int
  chats : String → Option ChatHistory

/-- NewLimitedMessageHistory. -/
def NewLimitedMessageHistory (limit : Int) : LimitedMessageHistory :=
  { limit := limit, chats := fun _ => none }

/-- LimitedMessageHistory.Add, per-conversation variant: look up (or
create) the ChatHistory for the ChatID of the message, bump count, append, and
drop the front when length exceeds the limit. -/
def LimitedMessageHistory.Add (l : LimitedMessageHistory) (message : Message) :
    LimitedMessageHistory :=
  let chatHistory :=
    match l.chats message.ChatID with
    | some ch => ch
    | none => { count := 0, messages := [] }
  let chatHistory := { chatHistory with
    count := chatHistory.count + 1,
    messages := chatHistory.messages ++ [message] }
  let chatHistory :=
    if (chatHistory.messages.length : Int) > l.limit then
      { chatHistory with messages := chatHistory.messages.drop 1 }
    else chatHistory
  { l with chats := fun k =>
      if k = message.ChatID then some chatHistory else l.chats k }

/-- LimitedMessageHistory.GetRandomMessage, per-conversation variant.  The
call `rand.Intn(len(messages))` is modelled by the explicit argument
`randomIndex`; its Go contract `0 ≤ randomIndex < len(messages)` appears
as a hypothesis in the theorems that use it. -/
def LimitedMessageHistory.GetRandomMessage (l : LimitedMessageHistory)
    (chatID : String) (randomIndex : Nat) : Option Message :=
  match l.chats chatID with
  | none => none
  | some chatHistory =>
    if chatHistory.messages.length = 0 then none
    else chatHistory.messages.get? randomIndex

/-- LimitedMessageHistory.GetMessagesByChatID (returns nil, i.e. `[]`,
for an unknown conversation key). -/
def LimitedMessageHistory.GetMessagesByChatID (l : LimitedMessageHistory)
    (chatID : String) : List Message :=
  match l.chats chatID with
  | none => []
  | some chatHistory => chatHistory.messages

end PerChat

/-! ## Bounded history buffer, legacy global variant (src/unnamed/part_001) -/

namespace GlobalHist

/-- Legacy single-sequence LimitedMessageHistory. -/
structure LimitedMessageHistory where
  limit : Int
  count : Int
  messages : List Message

/-- NewLimitedMessageHistory, legacy variant. -/
def NewLimitedMessageHistory (limit : Int) : LimitedMessageHistory :=
  { limit := limit, count := 0, messages := [] }

/-- LimitedMessageHistory.Add, legacy variant. -/
def LimitedMessageHistory.Add (l : LimitedMessageHistory) (message : Message) :
    LimitedMessageHistory :=
  let l := { l with count := l.count + 1, messages := l.messages ++ [message] }
  if (l.messages.length : Int) > l.limit then
    { l with messages := l.messages.drop 1 }
  else l

/-- LimitedMessageHistory.GetRandomMessage, legacy variant; `randomIndex`
models `rand.Intn(len(messages))` as in the per-conversation variant. -/
def LimitedMessageHistory.GetRandomMessage (l : LimitedMessageHistory)
    (randomIndex : Nat) : Option Message :=
  if l.messages.length = 0 then none
  else l.messages.get? randomIndex

end GlobalHist

/-! ## Message transformer (events package, TelegramListener.transform) -/

/-- TelegramListener.transformEntities: nil for an empty input slice,
otherwise a pointer to the converted slice. -/
def transformEntities (entities : List TgMessageEntity) : Option (List Entity) :=
  if entities.length = 0 then none
  else some (entities.map fun entity =>
    { EntityType := entity.EntityType
      Offset := entity.Offset
      Length := entity.Length
      URL := entity.URL
      User := entity.User.map fun u =>
        { ID := u.ID, Username := u.UserName,
          DisplayName := u.FirstName ++ " " ++ u.LastName } })

/-- The final statement block of TelegramListener.transform: fill in the
replied-to summary from `msg.ReplyToMessage`, when present. -/
def fillReply (msg : TgMessage) (message : Message) : Message :=
  match msg.ReplyToMessage with
  | some reply =>
    let message := { message with ReplyTo :=
      { message.ReplyTo with Text := reply.Text, Sent := reply.Date } }
    let message :=
      match reply.From with
      | some u =>
        { message with ReplyTo := { message.ReplyTo with From :=
          { ID := u.ID, Username := u.UserName,
            DisplayName := u.FirstName ++ " " ++ u.LastName } } }
      | none => message
    match reply.SenderChat with
    | some sc =>
      { message with ReplyTo := { message.ReplyTo with SenderChat :=
        { ID := sc.ID, UserName := sc.UserName } } }
    | none => message
  | none => message

/-- The opening struct literal of TelegramListener.transform; `msg.Time()`
is the `Date` field, unassigned fields are Go zero values. -/
def baseMsg (msg : TgMessage) : Message :=
  { Message.zero with
    ID := msg.MessageID
    Sent := msg.Date
    Text := msg.Text }

/-- The `msg.Chat.ID != 0` statement of transform: composite conversation
key; `strconv.Itoa` is `toString` on `Int` (same digits and sign). -/
def fillChatID (msg : TgMessage) (message : Message) : Message :=
  if msg.Chat.ID ≠ 0 then
    { message with
      ChatID := toString msg.Chat.ID ++ "_" ++ toString msg.MessageThreadID }
  else message

/-- The `msg.From != nil` statement of transform. -/
def fillFrom (msg : TgMessage) (message : Message) : Message :=
  match msg.From with
  | some u =>
    { message with From :=
      { ID := u.ID, Username := u.UserName,
        DisplayName := u.FirstName ++ " " ++ u.LastName } }
  | none => message

/-- The `msg.SenderChat != nil` statement of transform. -/
def fillSenderChat (msg : TgMessage) (message : Message) : Message :=
  match msg.SenderChat with
  | some sc =>
    { message with SenderChat := { ID := sc.ID, UserName := sc.UserName } }
  | none => message

/-- The content switch of transform: entity spans win over a photo; the
photo branch takes the last (largest) size variant.  (`sizes[len-1]` is
`getLast?`; the `none` arm is unreachable under the `len > 0` guard.) -/
def fillContent (msg : TgMessage) (message : Message) : Message :=
  if msg.Entities.length > 0 then
    { message with Entities := transformEntities msg.Entities }
  else if msg.Photo.length > 0 then
    match msg.Photo.getLast? with
    | some lastSize =>
      let img : Image :=
        { FileID := lastSize.FileID
          Width := lastSize.Width
          Height := lastSize.Height
          Caption := msg.Caption
          Entities := transformEntities msg.CaptionEntities }
      { message with Image := some img }
    | none => message
  else message

/-- TelegramListener.transform: wire message to internal bot.Message, as
the Go statement sequence. -/
def transform (msg : TgMessage) : Message :=
  fillReply msg
    (fillContent msg (fillSenderChat msg (fillFrom msg
      (fillChatID msg (baseMsg msg)))))

/-! ## Outbound delivery (sendBotResponse / saveBotMessage) -/

/-- tbapi.ModeMarkdown. -/
def ModeMarkdown : String := "Markdown"

/-- tbapi.ModeHTML. -/
def ModeHTML : String := "HTML"

/-- The outbound tbapi.MessageConfig fields the listener sets
(`tbapi.NewMessage` plus ParseMode and ReplyParameters.MessageID). -/
structure MessageConfig where
  ChatID : Int
  Text : String
  ParseMode : String
  ReplyToMessageID : Int
deriving Repr, DecidableEq

/-- Go strings.Contains as substring containment. -/
def strContains (s pattern : String) : Bool :=
  decide (List.IsInfix pattern.toList s.toList)

/-- The substring tested by the fallback branch of sendBotResponse. -/
def cantParsePattern : String := "Bad Request: can\x27t parse entities:"

/-- Go `fmt.Errorf("can\x27t send message to telegram %q: %w", text, err)`,
with `%q` modelled as plain quote wrapping (escaping details of `%q` are
immaterial to every claim). -/
def wrapSendErr (text err : String) : String :=
  "can\x27t send message to telegram \x22" ++ text ++ "\x22: " ++ err

/-- Result of one `sendBotResponse` call in the embedding: the ordered
list of `TbAPI.Send` invocations, the ordered list of `MsgLogger.Save`
invocations, and the returned error (`none` = nil). -/
structure SendOutcome where
  calls : List MessageConfig
  saved : List Message
  err : Option String
deriving Repr, DecidableEq

/-- TelegramListener.saveBotMessage: the list of `MsgLogger.Save` calls it
makes (`cfgChatID` is the resolved `l.chatID` of the listener). -/
def saveBotMessage (cfgChatID : Int) (msg : TgMessage) (fromChat : Int) :
    List Message :=
  if fromChat ≠ cfgChatID then []
  else [transform msg]

/-- The outbound message sendBotResponse builds before any fallback
retry: `tbapi.NewMessage(chatID, resp.Text)` with ParseMode defaulted to
Markdown, overridden by a nonempty `resp.ParseMode`, and the reply-target
attached. -/
def firstTbMsg (resp : Response) (chatID : Int) : MessageConfig :=
  let tbMsg : MessageConfig :=
    { ChatID := chatID, Text := resp.Text, ParseMode := ModeMarkdown,
      ReplyToMessageID := resp.ReplyTo }
  if resp.ParseMode ≠ "" then { tbMsg with ParseMode := resp.ParseMode }
  else tbMsg

/-- TelegramListener.sendBotResponse.  The `TbAPI.Send` collaborator is
the function argument `api`, returning either the sent tbapi.Message
confirmation or an error string. -/
def sendBotResponse (api : MessageConfig → Except String TgMessage)
    (cfgChatID : Int) (resp : Response) (chatID : Int) : SendOutcome :=
  if !resp.Send then { calls := [], saved := [], err := none }
  else
    let tbMsg := firstTbMsg resp chatID
    match api tbMsg with
    | .ok res =>
      { calls := [tbMsg], saved := saveBotMessage cfgChatID res chatID,
        err := none }
    | .error e =>
      if tbMsg.ParseMode = ModeMarkdown ∧ strContains e cantParsePattern then
        let tbMsg2 := { tbMsg with ParseMode := "" }
        match api tbMsg2 with
        | .ok res =>
          { calls := [tbMsg, tbMsg2],
            saved := saveBotMessage cfgChatID res chatID, err := none }
        | .error e2 =>
          { calls := [tbMsg, tbMsg2], saved := [],
            err := some (wrapSendErr resp.Text e2) }
      else
        { calls := [tbMsg], saved := [],
          err := some (wrapSendErr resp.Text e) }

/-! ## Moderation-identity extraction (getBanUsername) -/

/-- Go default `%v` formatting of a struct: fields space-separated between
braces. -/
def goFmtUser (u : User) : String :=
  "\x7b" ++ toString u.ID ++ " " ++ u.Username ++ " " ++ u.DisplayName ++ "\x7d"

/-- Go default `%v` formatting of bot.SenderChat. -/
def goFmtSenderChat (c : SenderChat) : String :=
  "\x7b" ++ toString c.ID ++ " " ++ c.UserName ++ "\x7d"

/-- getBanUsername; `updateMessage` is `update.Message` (non-nil at every
call site of the listener).  The unguarded Go dereference
`update.Message.ReplyToMessage.SenderChat` panics when `ReplyToMessage`
is nil; that panic is the `none` result. -/
def getBanUsername (resp : Response) (updateMessage : TgMessage) :
    Option String :=
  if resp.ChannelID = 0 then some (goFmtUser resp.User)
  else
    let botChat : SenderChat := { ID := resp.ChannelID, UserName := "" }
    let botChat :=
      match updateMessage.SenderChat with
      | some sc => { botChat with UserName := sc.UserName }
      | none => botChat
    if botChat.UserName = "" then
      match updateMessage.ReplyToMessage with
      | none => none
      | some reply =>
        match reply.SenderChat with
        | some sc =>
          some (goFmtSenderChat { botChat with UserName := sc.UserName })
        | none => some (goFmtSenderChat botChat)
    else some (goFmtSenderChat botChat)

/-- The effective sender-channel handle of a wire message: the Go value
of `botChat.UserName` after the `update.Message.SenderChat != nil`
statement of getBanUsername (blank when the field is absent). -/
def senderChatHandle (m : TgMessage) : String :=
  match m.SenderChat with
  | some sc => sc.UserName
  | none => ""

/-! ## Lazy once-initialization of the outbound channel (Do vs Submit) -/

/-- time.Second in nanoseconds. -/
def second : Int := 1000000000

/-- The listener state touched by the shared `l.msgs.once`: whether the
once has fired, whether the channel exists, and the idle duration. -/
structure LazyInitState where
  msgsOnceDone : Bool
  msgsChMade : Bool
  IdleDuration : Int
deriving Repr, DecidableEq

/-- The `l.msgs.once.Do` body inside TelegramListener.Do: makes the
channel and applies the 30s idle-duration default. -/
def doOnceInit (s : LazyInitState) : LazyInitState :=
  if s.msgsOnceDone then s
  else
    { msgsOnceDone := true, msgsChMade := true,
      IdleDuration :=
        if s.IdleDuration = 0 then 30 * second else s.IdleDuration }

/-- The `l.msgs.once.Do` body inside Submit and SubmitHTML: makes the
channel only. -/
def submitOnceInit (s : LazyInitState) : LazyInitState :=
  if s.msgsOnceDone then s
  else { s with msgsOnceDone := true, msgsChMade := true }

/-! ## One iteration of the Running select loop -/

/-- One ready event of the select in TelegramListener.Do: a live update
(`update.Message`, possibly nil), a response drained from the submission
channel, or the idle timeout. -/
inductive LoopEvent where
  | update (msg : Option TgMessage)
  | submitted (resp : Response)
  | idle

/-- Observable effects of one loop iteration: the bot.Message arguments
of `Bots.OnMessage` calls, the `MsgLogger.Save` calls made before
dispatch (the incoming-update save at the top of the update branch), and
the sendBotResponse outcome. -/
structure StepOutcome where
  dispatched : List Message
  inboundSaved : List Message
  send : SendOutcome
deriving Repr, DecidableEq

/-- The body of the select in TelegramListener.Do, one event: drop rules
for the update branch, then transform/save/dispatch/send; the submission
and idle branches send to the configured chat (`cfgChatID`). -/
def processEvent (bots : Message → Response)
    (api : MessageConfig → Except String TgMessage)
    (cfgChatID : Int) : LoopEvent → StepOutcome
  | .update none =>
    { dispatched := [], inboundSaved := [],
      send := { calls := [], saved := [], err := none } }
  | .update (some m) =>
    if m.Chat.ID = 0 then
      { dispatched := [], inboundSaved := [],
        send := { calls := [], saved := [], err := none } }
    else if m.Chat.ChatType = "private" then
      { dispatched := [], inboundSaved := [],
        send := { calls := [], saved := [], err := none } }
    else
      let fromChat := m.Chat.ID
      let msg := transform m
      let inboundSaved := if fromChat = cfgChatID then [msg] else []
      let resp := bots msg
      { dispatched := [msg], inboundSaved := inboundSaved,
        send := sendBotResponse api cfgChatID resp fromChat }
  | .submitted resp =>
    { dispatched := [], inboundSaved := [],
      send := sendBotResponse api cfgChatID resp cfgChatID }
  | .idle =>
    let resp := bots { Message.zero with Text := "idle" }
    { dispatched := [{ Message.zero with Text := "idle" }], inboundSaved := [],
      send := sendBotResponse api cfgChatID resp cfgChatID }

/-! ## Concrete fixtures used by witnesses -/

/-- A minimal wire message fixture. -/
def wireA : TgMessage :=
  .mk 10 1000 "hello" { ID := 5, ChatType := "supergroup" } 0
    none none [] [] "" [] none

/-- A response the bot wants delivered with the default (Markdown) mode. -/
def respMd : Response := { Response.zero with Send := true, Text := "hi" }

/-- A send error carrying the entity-parse pattern. -/
def parseErrMsg : String := "Bad Request: can\x27t parse entities: x"

/-- A transport that always confirms delivery. -/
def apiOkA : MessageConfig → Except String TgMessage := fun _ => .ok wireA

/-- A transport that rejects Markdown with the entity-parse error and
accepts anything else. -/
def apiParseFail : MessageConfig → Except String TgMessage := fun m =>
  if m.ParseMode = ModeMarkdown then .error parseErrMsg else .ok wireA

/-- A transport that always fails with an unrelated error. -/
def apiBoom : MessageConfig → Except String TgMessage := fun _ => .error ("boom")

/-- A bold formatting span fixture. -/
def entBold : TgMessageEntity :=
  { EntityType := "bold", Offset := 0, Length := 2, URL := "", User := none }

/-- A small photo size variant. -/
def photoSmall : TgPhotoSize := { FileID := "s", Width := 90, Height := 60 }

/-- The largest photo size variant (last in the size-ordered list). -/
def photoBig : TgPhotoSize := { FileID := "b", Width := 900, Height := 600 }

/-- A wire message carrying both formatting spans and a photo. -/
def wireBoth : TgMessage :=
  .mk 11 1 "txt" { ID := 5, ChatType := "supergroup" } 0 none none
    [entBold] [photoSmall, photoBig] "cap" [] none

/-- A wire message carrying a photo but no formatting spans. -/
def wirePhotoOnly : TgMessage :=
  .mk 12 1 "" { ID := 5, ChatType := "supergroup" } 0 none none
    [] [photoSmall, photoBig] "cap" [entBold] none

/-- A wire message with every optional field absent. -/
def wireBare : TgMessage :=
  .mk 13 2 "hi" { ID := 0, ChatType := "" } 0 none none [] [] "" [] none

/-- A Response carrying a channel-acting-as context (nonzero ChannelID). -/
def respChan : Response := { Response.zero with ChannelID := 77 }

/-- A wire message whose sender-channel handle is set. -/
def wireChanPost : TgMessage :=
  .mk 14 1 "" { ID := 5, ChatType := "supergroup" } 0 none
    (some { ID := 77, UserName := "chanhandle" }) [] [] "" [] none

/-- A wire message with a blank sender-channel handle and a replied-to
message whose sender-channel handle is set. -/
def wireAnonWithReply : TgMessage :=
  .mk 15 1 "" { ID := 5, ChatType := "supergroup" } 0 none none [] [] "" []
    (some wireChanPost)

/-- The last `C` elements of a list, in order (all of it when
`C ≥ length`): the expected retained contents of a capacity-`C` bounded
history buffer. -/
def lastN {α : Type _} (C : Nat) (xs : List α) : List α :=
  xs.drop (xs.length - C)

/-- An internal message tagged with an id and a conversation key, for
history-buffer witnesses. -/
def histMsg (i : Int) (k : String) : Message :=
  { Message.zero with ID := i, ChatID := k }

/-! ## Claim theorems -/

/-- C6: a Response with Send=false delivered through sendBotResponse
produces zero side effects for any values of the other fields: no
outbound Send call, no Save call, and a nil (success) return. -/
theorem sendFalse_noSideEffects (api : MessageConfig → Except String TgMessage)
    (cfgChatID : Int) (resp : Response) (chatID : Int)
    (h : resp.Send = false) :
    sendBotResponse api cfgChatID resp chatID =
      { calls := [], saved := [], err := none } := by
  simp [sendBotResponse, h]

/-- Witness for C6 at a concrete transport and response. -/
theorem sendFalse_noSideEffects_witness :
    Response.zero.Send = false ∧
    sendBotResponse apiBoom 1 Response.zero 2 =
      { calls := [], saved := [], err := none } :=
  ⟨rfl, sendFalse_noSideEffects apiBoom 1 Response.zero 2 rfl⟩

/-- C1: for a Response with Send=true, if the first delivery attempt
fails with an error containing the entity-parse pattern and the mode used
was Markdown, exactly one retry occurs, with ParseMode set to none (empty
string); for a first failure of any other kind, or when the mode used was
not Markdown, zero retries occur and the (wrapped) error is returned. -/
theorem markdownFallback_retry_policy
    (api : MessageConfig → Except String TgMessage)
    (cfgChatID chatID : Int) (resp : Response) (e : String)
    (hsend : resp.Send = true)
    (herr : api (firstTbMsg resp chatID) = Except.error e) :
    ((firstTbMsg resp chatID).ParseMode = ModeMarkdown ∧
        strContains e cantParsePattern = true →
      (sendBotResponse api cfgChatID resp chatID).calls =
        [firstTbMsg resp chatID,
          { firstTbMsg resp chatID with ParseMode := "" }]) ∧
    (¬((firstTbMsg resp chatID).ParseMode = ModeMarkdown ∧
        strContains e cantParsePattern = true) →
      (sendBotResponse api cfgChatID resp chatID).calls =
          [firstTbMsg resp chatID] ∧
        (sendBotResponse api cfgChatID resp chatID).err =
          some (wrapSendErr resp.Text e)) := by
  constructor
  · intro h
    simp only [sendBotResponse, hsend, Bool.not_true, Bool.false_eq_true,
      if_false, herr]
    rw [if_pos h]
    cases h2 : api { firstTbMsg resp chatID with ParseMode := "" } <;> simp
  · intro h
    simp only [sendBotResponse, hsend, Bool.not_true, Bool.false_eq_true,
      if_false, herr]
    rw [if_neg h]
    exact ⟨rfl, rfl⟩

/-- Witness for C1: the fallback path at a concrete transport whose first
(Markdown) attempt fails with the entity-parse error, and the no-retry
path at a transport failing with an unrelated error. -/
theorem markdownFallback_retry_policy_witness :
    (sendBotResponse apiParseFail 5 respMd 5).calls =
        [firstTbMsg respMd 5, { firstTbMsg respMd 5 with ParseMode := "" }] ∧
      (sendBotResponse apiBoom 5 respMd 5).calls = [firstTbMsg respMd 5] ∧
      (sendBotResponse apiBoom 5 respMd 5).err =
        some (wrapSendErr respMd.Text ("boom")) := by
  refine ⟨?_, ?_⟩
  · exact (markdownFallback_retry_policy apiParseFail 5 5 respMd parseErrMsg
      rfl rfl).1 ⟨rfl, by decide⟩
  · exact (markdownFallback_retry_policy apiBoom 5 5 respMd ("boom")
      rfl rfl).2 (by decide)

/-- C7: a confirmed successful delivery is transformed back and persisted
via MsgLogger.Save iff the destination chat equals the configured target
chat; deliveries to any other chat are never logged (on every path). -/
theorem savedOnlyForTargetChat (api : MessageConfig → Except String TgMessage)
    (cfgChatID chatID : Int) (resp : Response) (res : TgMessage) (e : String) :
    (∀ (msg : TgMessage) (fromChat : Int),
      saveBotMessage cfgChatID msg fromChat =
        if fromChat = cfgChatID then [transform msg] else []) ∧
    (resp.Send = true → api (firstTbMsg resp chatID) = Except.ok res →
      (sendBotResponse api cfgChatID resp chatID).saved =
        if chatID = cfgChatID then [transform res] else []) ∧
    (resp.Send = true → api (firstTbMsg resp chatID) = Except.error e →
      (firstTbMsg resp chatID).ParseMode = ModeMarkdown →
      strContains e cantParsePattern = true →
      api { firstTbMsg resp chatID with ParseMode := "" } = Except.ok res →
      (sendBotResponse api cfgChatID resp chatID).saved =
        if chatID = cfgChatID then [transform res] else []) ∧
    (chatID ≠ cfgChatID →
      (sendBotResponse api cfgChatID resp chatID).saved = []) := by
  refine ⟨?_, ?_, ?_, ?_⟩
  · intro msg fromChat
    by_cases h : fromChat = cfgChatID <;> simp [saveBotMessage, h]
  · intro hsend hok
    simp only [sendBotResponse, hsend, Bool.not_true, Bool.false_eq_true,
      if_false, hok]
    by_cases h : chatID = cfgChatID <;> simp [saveBotMessage, h]
  · intro hsend herr hmode hpat hok2
    simp only [sendBotResponse, hsend, Bool.not_true, Bool.false_eq_true,
      if_false, herr]
    rw [if_pos ⟨hmode, hpat⟩]
    simp only [hok2]
    by_cases h : chatID = cfgChatID <;> simp [saveBotMessage, h]
  · intro hne
    by_cases hsend : resp.Send
    · simp only [sendBotResponse, hsend, Bool.not_true, Bool.false_eq_true,
        if_false]
      cases h1 : api (firstTbMsg resp chatID) with
      | ok r => simp [saveBotMessage, hne]
      | error e1 =>
        by_cases hc : (firstTbMsg resp chatID).ParseMode = ModeMarkdown ∧
            strContains e1 cantParsePattern = true
        · cases h2 : api { firstTbMsg resp chatID with ParseMode := "" } <;>
            simp [hc, h2, saveBotMessage, hne]
        · simp [hc, saveBotMessage, hne]
    · simp [sendBotResponse, hsend]

/-- Witness for C7: a confirmed delivery to the target chat is logged as
its transform; the same delivery to another chat is not logged. -/
theorem savedOnlyForTargetChat_witness :
    (sendBotResponse apiOkA 5 respMd 5).saved = [transform wireA] ∧
      (sendBotResponse apiOkA 5 respMd 7).saved = [] := by
  constructor
  · have h := (savedOnlyForTargetChat apiOkA 5 5 respMd wireA ("e")).2.1 rfl rfl
    simpa using h
  · exact (savedOnlyForTargetChat apiOkA 5 7 respMd wireA ("e")).2.2.2 (by decide)

/-! ### Projection lemmas for the transform pipeline -/

theorem fillReply_Entities (msg : TgMessage) (m : Message) :
    (fillReply msg m).Entities = m.Entities := by
  unfold fillReply
  cases msg.ReplyToMessage with
  | none => rfl
  | some reply =>
    obtain ⟨_, _, _, _, _, rFrom, rSender, _, _, _, _, _⟩ := reply
    cases rFrom <;> cases rSender <;> rfl

theorem fillReply_Image (msg : TgMessage) (m : Message) :
    (fillReply msg m).Image = m.Image := by
  unfold fillReply
  cases msg.ReplyToMessage with
  | none => rfl
  | some reply =>
    obtain ⟨_, _, _, _, _, rFrom, rSender, _, _, _, _, _⟩ := reply
    cases rFrom <;> cases rSender <;> rfl

theorem fillReply_From (msg : TgMessage) (m : Message) :
    (fillReply msg m).From = m.From := by
  unfold fillReply
  cases msg.ReplyToMessage with
  | none => rfl
  | some reply =>
    obtain ⟨_, _, _, _, _, rFrom, rSender, _, _, _, _, _⟩ := reply
    cases rFrom <;> cases rSender <;> rfl

theorem fillReply_SenderChat (msg : TgMessage) (m : Message) :
    (fillReply msg m).SenderChat = m.SenderChat := by
  unfold fillReply
  cases msg.ReplyToMessage with
  | none => rfl
  | some reply =>
    obtain ⟨_, _, _, _, _, rFrom, rSender, _, _, _, _, _⟩ := reply
    cases rFrom <;> cases rSender <;> rfl

theorem fillReply_ChatID (msg : TgMessage) (m : Message) :
    (fillReply msg m).ChatID = m.ChatID := by
  unfold fillReply
  cases msg.ReplyToMessage with
  | none => rfl
  | some reply =>
    obtain ⟨_, _, _, _, _, rFrom, rSender, _, _, _, _, _⟩ := reply
    cases rFrom <;> cases rSender <;> rfl

theorem fillReply_of_noReply (msg : TgMessage) (m : Message)
    (h : msg.ReplyToMessage = none) : fillReply msg m = m := by
  unfold fillReply
  rw [h]

theorem fillContent_From (msg : TgMessage) (m : Message) :
    (fillContent msg m).From = m.From := by
  unfold fillContent
  split_ifs <;> try rfl
  cases msg.Photo.getLast? <;> rfl

theorem fillContent_SenderChat (msg : TgMessage) (m : Message) :
    (fillContent msg m).SenderChat = m.SenderChat := by
  unfold fillContent
  split_ifs <;> try rfl
  cases msg.Photo.getLast? <;> rfl

theorem fillContent_ChatID (msg : TgMessage) (m : Message) :
    (fillContent msg m).ChatID = m.ChatID := by
  unfold fillContent
  split_ifs <;> try rfl
  cases msg.Photo.getLast? <;> rfl

theorem fillContent_ReplyTo (msg : TgMessage) (m : Message) :
    (fillContent msg m).ReplyTo = m.ReplyTo := by
  unfold fillContent
  split_ifs <;> try rfl
  cases msg.Photo.getLast? <;> rfl

theorem fillContent_of_entities (msg : TgMessage) (m : Message)
    (h : msg.Entities ≠ []) :
    fillContent msg m = { m with Entities := transformEntities msg.Entities } := by
  unfold fillContent
  rw [if_pos (List.length_pos.mpr h)]

theorem fillContent_of_photo (msg : TgMessage) (m : Message)
    (h1 : msg.Entities = []) (h2 : msg.Photo ≠ []) :
    ∃ lastSize, msg.Photo.getLast? = some lastSize ∧
      fillContent msg m = { m with Image := some (Image.mk lastSize.FileID lastSize.Width lastSize.Height msg.Caption (transformEntities msg.CaptionEntities)) } := by
  cases hL : msg.Photo.getLast? with
  | none => exact absurd (List.getLast?_eq_none_iff.mp hL) h2
  | some lastSize =>
    refine ⟨lastSize, rfl, ?_⟩
    unfold fillContent
    rw [if_neg (by simp [h1]), if_pos (List.length_pos.mpr h2), hL]

theorem fillContent_of_neither (msg : TgMessage) (m : Message)
    (h1 : msg.Entities = []) (h2 : msg.Photo = []) :
    fillContent msg m = m := by
  unfold fillContent
  rw [if_neg (by simp [h1]), if_neg (by simp [h2])]

theorem preContent_Entities (msg : TgMessage) :
    (fillSenderChat msg (fillFrom msg (fillChatID msg (baseMsg msg)))).Entities
      = none := by
  unfold fillSenderChat fillFrom fillChatID baseMsg
  cases msg.From <;> cases msg.SenderChat <;> split_ifs <;> rfl

theorem preContent_Image (msg : TgMessage) :
    (fillSenderChat msg (fillFrom msg (fillChatID msg (baseMsg msg)))).Image
      = none := by
  unfold fillSenderChat fillFrom fillChatID baseMsg
  cases msg.From <;> cases msg.SenderChat <;> split_ifs <;> rfl

theorem preContent_ReplyTo (msg : TgMessage) :
    (fillSenderChat msg (fillFrom msg (fillChatID msg (baseMsg msg)))).ReplyTo
      = ReplySummary.zero := by
  unfold fillSenderChat fillFrom fillChatID baseMsg
  cases msg.From <;> cases msg.SenderChat <;> split_ifs <;> rfl

theorem preContent_From (msg : TgMessage) (h : msg.From = none) :
    (fillSenderChat msg (fillFrom msg (fillChatID msg (baseMsg msg)))).From
      = User.zero := by
  unfold fillSenderChat fillFrom fillChatID baseMsg
  rw [h]
  cases msg.SenderChat <;> split_ifs <;> rfl

theorem preContent_SenderChat (msg : TgMessage) (h : msg.SenderChat = none) :
    (fillSenderChat msg (fillFrom msg (fillChatID msg
      (baseMsg msg)))).SenderChat = SenderChat.zero := by
  unfold fillSenderChat fillFrom fillChatID baseMsg
  rw [h]
  cases msg.From <;> split_ifs <;> rfl

theorem preContent_ChatID (msg : TgMessage) (h : msg.Chat.ID = 0) :
    (fillSenderChat msg (fillFrom msg (fillChatID msg (baseMsg msg)))).ChatID
      = "" := by
  unfold fillSenderChat fillFrom fillChatID baseMsg
  rw [if_neg (by simp [h])]
  cases msg.From <;> cases msg.SenderChat <;> rfl

theorem transformEntities_ne_some_nil (entities : List TgMessageEntity) :
    transformEntities entities ≠ some [] := by
  unfold transformEntities
  split_ifs with h
  · simp
  · simp only [ne_eq, Option.some.injEq, List.map_eq_nil_iff]
    intro hnil
    rw [hnil] at h
    exact h rfl

/-- C3: the either/or content selection of transform: with formatting spans
present the InternalMessage has entities set and image unset even when a
photo is also present; with no spans but a photo, the image comes from
the last (largest) size variant with the caption and caption
entities, and entities stay unset; never are both set. -/
theorem transform_content_eitherOr (msg : TgMessage) :
    (msg.Entities ≠ [] →
      (transform msg).Entities = transformEntities msg.Entities ∧
        (transform msg).Entities ≠ none ∧ (transform msg).Image = none) ∧
    (msg.Entities = [] → msg.Photo ≠ [] →
      ∃ lastSize, msg.Photo.getLast? = some lastSize ∧
        (transform msg).Image = some
          { FileID := lastSize.FileID, Width := lastSize.Width,
            Height := lastSize.Height, Caption := msg.Caption,
            Entities := transformEntities msg.CaptionEntities } ∧
        (transform msg).Entities = none) ∧
    ¬((transform msg).Entities ≠ none ∧ (transform msg).Image ≠ none) := by
  have hent : ∀ h : msg.Entities ≠ [],
      (transform msg).Entities = transformEntities msg.Entities ∧
        (transform msg).Image = none := by
    intro h
    unfold transform
    rw [fillContent_of_entities msg _ h, fillReply_Entities, fillReply_Image]
    exact ⟨rfl, preContent_Image msg⟩
  have hnone : msg.Entities = [] → (transform msg).Entities = none := by
    intro h1
    unfold transform
    rw [fillReply_Entities]
    by_cases h2 : msg.Photo = []
    · rw [fillContent_of_neither msg _ h1 h2]
      exact preContent_Entities msg
    · obtain ⟨ls, _, heq⟩ := fillContent_of_photo msg
        (fillSenderChat msg (fillFrom msg (fillChatID msg (baseMsg msg))))
        h1 h2
      rw [heq]
      exact preContent_Entities msg
  refine ⟨?_, ?_, ?_⟩
  · intro h
    obtain ⟨he, hi⟩ := hent h
    refine ⟨he, ?_, hi⟩
    rw [he]
    intro hcontra
    unfold transformEntities at hcontra
    rw [if_neg (by simp [List.length_eq_zero, h])] at hcontra
    exact Option.some_ne_none _ hcontra
  · intro h1 h2
    obtain ⟨ls, hls, heq⟩ := fillContent_of_photo msg
      (fillSenderChat msg (fillFrom msg (fillChatID msg (baseMsg msg)))) h1 h2
    refine ⟨ls, hls, ?_, hnone h1⟩
    unfold transform
    rw [heq, fillReply_Image]
  · rintro ⟨hE, hI⟩
    by_cases h : msg.Entities = []
    · exact hE (hnone h)
    · exact hI (hent h).2

/-- Witness for C3: a message with both spans and a photo keeps the spans
and no image; a photo-only message gets the largest size variant with its
caption and caption entities, and no spans. -/
theorem transform_content_eitherOr_witness :
    (transform wireBoth).Entities = transformEntities wireBoth.Entities ∧
      (transform wireBoth).Image = none ∧
      (transform wirePhotoOnly).Image = some
        { FileID := photoBig.FileID, Width := photoBig.Width,
          Height := photoBig.Height, Caption := wirePhotoOnly.Caption,
          Entities := transformEntities wirePhotoOnly.CaptionEntities } ∧
      (transform wirePhotoOnly).Entities = none := by
  have h1 := (transform_content_eitherOr wireBoth).1 (by decide)
  have h2 := (transform_content_eitherOr wirePhotoOnly).2.1 rfl (by decide)
  obtain ⟨ls, hls, himg, hentnone⟩ := h2
  have hlast : ls = photoBig := by
    have : (some photoBig : Option TgPhotoSize) = some ls :=
      (rfl : wirePhotoOnly.Photo.getLast? = some photoBig).symm.trans hls
    injection this with h
    exact h.symm
  rw [hlast] at himg
  exact ⟨h1.1, h1.2.2, himg, hentnone⟩

/-- C9: transform tolerates every optional wire field being absent,
leaving the corresponding InternalMessage fields at their zero value, and
the spans list is nil — never an empty non-nil list — when the wire
message carries no spans. -/
theorem transform_tolerates_absent (msg : TgMessage) :
    (msg.From = none → (transform msg).From = User.zero) ∧
    (msg.SenderChat = none → (transform msg).SenderChat = SenderChat.zero) ∧
    (msg.Chat.ID = 0 → (transform msg).ChatID = "") ∧
    (msg.ReplyToMessage = none → (transform msg).ReplyTo = ReplySummary.zero) ∧
    (msg.Entities = [] → (transform msg).Entities = none) ∧
    (msg.Entities = [] → msg.Photo = [] → (transform msg).Image = none) ∧
    (transform msg).Entities ≠ some [] := by
  have hnone : msg.Entities = [] → (transform msg).Entities = none := by
    intro h1
    unfold transform
    rw [fillReply_Entities]
    by_cases h2 : msg.Photo = []
    · rw [fillContent_of_neither msg _ h1 h2]
      exact preContent_Entities msg
    · obtain ⟨ls, _, heq⟩ := fillContent_of_photo msg
        (fillSenderChat msg (fillFrom msg (fillChatID msg (baseMsg msg))))
        h1 h2
      rw [heq]
      exact preContent_Entities msg
  refine ⟨?_, ?_, ?_, ?_, hnone, ?_, ?_⟩
  · intro h
    unfold transform
    rw [fillReply_From, fillContent_From]
    exact preContent_From msg h
  · intro h
    unfold transform
    rw [fillReply_SenderChat, fillContent_SenderChat]
    exact preContent_SenderChat msg h
  · intro h
    unfold transform
    rw [fillReply_ChatID, fillContent_ChatID]
    exact preContent_ChatID msg h
  · intro h
    unfold transform
    rw [fillReply_of_noReply msg _ h, fillContent_ReplyTo]
    exact preContent_ReplyTo msg
  · intro h1 h2
    unfold transform
    rw [fillReply_Image, fillContent_of_neither msg _ h1 h2]
    exact preContent_Image msg
  · by_cases h : msg.Entities = []
    · rw [hnone h]
      simp
    · unfold transform
      rw [fillReply_Entities, fillContent_of_entities msg _ h]
      exact transformEntities_ne_some_nil msg.Entities

/-- Witness for C9 at a wire message with every optional field absent. -/
theorem transform_tolerates_absent_witness :
    (transform wireBare).From = User.zero ∧
      (transform wireBare).SenderChat = SenderChat.zero ∧
      (transform wireBare).ChatID = "" ∧
      (transform wireBare).ReplyTo = ReplySummary.zero ∧
      (transform wireBare).Entities = none ∧
      (transform wireBare).Image = none := by
  have h := transform_tolerates_absent wireBare
  exact ⟨h.1 rfl, h.2.1 rfl, h.2.2.1 rfl, h.2.2.2.1 rfl,
    h.2.2.2.2.1 rfl, h.2.2.2.2.2.1 rfl rfl⟩

/-- C5 counterexample: with a channel-acting-as context (ChannelID 77), a
blank sender-channel handle and no replied-to message, getBanUsername
dereferences the nil `ReplyToMessage` pointer — a Go panic, modelled as
`none` — so it does not return a display string for every Response and
update. -/
theorem getBanUsername_nilDeref_counterexample :
    getBanUsername respChan wireA = none := by decide

/-- C5 amended: getBanUsername returns a display string provided that,
when the Response carries a channel-acting-as context and the current
sender-channel handle of the current message is blank or absent, the replied-to
message is present; with no channel context it formats the human user
identity, otherwise it prefers the sender-channel
handle of the current message and falls back to that of the replied-to
message; when the fallback is
needed but the replied-to message is absent, the Go code panics (nil
dereference, `none`). -/
theorem getBanUsername_total_amended (resp : Response) (m : TgMessage) :
    (resp.ChannelID = 0 → getBanUsername resp m = some (goFmtUser resp.User)) ∧
    (resp.ChannelID ≠ 0 → senderChatHandle m ≠ "" →
      getBanUsername resp m =
        some (goFmtSenderChat (SenderChat.mk resp.ChannelID (senderChatHandle m)))) ∧
    (resp.ChannelID ≠ 0 → senderChatHandle m = "" →
      ∀ r, m.ReplyToMessage = some r →
        getBanUsername resp m =
          some (goFmtSenderChat (SenderChat.mk resp.ChannelID (senderChatHandle r)))) ∧
    (resp.ChannelID ≠ 0 → senderChatHandle m = "" → m.ReplyToMessage = none →
      getBanUsername resp m = none) := by
  refine ⟨?_, ?_, ?_, ?_⟩
  · intro h
    simp [getBanUsername, h]
  · intro h hhandle
    unfold getBanUsername
    rw [if_neg h]
    cases hm : m.SenderChat with
    | none => simp [senderChatHandle, hm] at hhandle
    | some sc =>
      simp only [senderChatHandle, hm] at hhandle
      simp only [hm]
      rw [if_neg hhandle]
      simp [senderChatHandle, hm]
  · intro h hhandle r hr
    unfold getBanUsername
    rw [if_neg h]
    cases hm : m.SenderChat with
    | none =>
      simp only [hm, hr, if_true]
      cases hrs : r.SenderChat <;> simp [senderChatHandle, hrs]
    | some sc =>
      simp only [senderChatHandle, hm] at hhandle
      simp only [hm, hr]
      rw [if_pos hhandle]
      cases hrs : r.SenderChat <;> simp [senderChatHandle, hrs, hhandle]
  · intro h hhandle hr
    unfold getBanUsername
    rw [if_neg h]
    cases hm : m.SenderChat with
    | none => simp [hm, hr]
    | some sc =>
      simp only [senderChatHandle, hm] at hhandle
      simp [hm, hr, hhandle]

/-- Witness for the amended C5: the three non-panicking regimes at
concrete inputs. -/
theorem getBanUsername_total_amended_witness :
    getBanUsername Response.zero wireA = some (goFmtUser User.zero) ∧
      getBanUsername respChan wireChanPost =
        some (goFmtSenderChat (SenderChat.mk 77 "chanhandle")) ∧
      getBanUsername respChan wireAnonWithReply =
        some (goFmtSenderChat (SenderChat.mk 77 "chanhandle")) := by
  refine ⟨(getBanUsername_total_amended Response.zero wireA).1 rfl, ?_, ?_⟩
  · have h := (getBanUsername_total_amended respChan wireChanPost).2.1
      (by decide) (by decide)
    simpa [respChan, senderChatHandle, wireChanPost] using h
  · have h := (getBanUsername_total_amended respChan wireAnonWithReply).2.2.1
      (by decide) (by decide) wireChanPost rfl
    simpa [respChan, senderChatHandle, wireChanPost] using h

/-- C4 counterexample: when Submit (or SubmitHTML) fires the shared
`l.msgs.once` before Do does, the once-body that applies the 30-second
idle default never runs, so the idle duration stays 0 — the default does
not hold regardless of call order. -/
theorem idleDefault_order_counterexample :
    (doOnceInit (submitOnceInit (LazyInitState.mk false false 0))).IdleDuration
      ≠ 30 * second := by decide

/-- C4 amended: with an unconfigured (zero) idle duration, the 30-second
default is applied exactly when the once-body of Do performs the one-time
initialization (Do first); the channel creation itself is idempotent and
order-independent, but if Submit/SubmitHTML fires the shared once first,
the idle duration remains 0 (the idle timeout then fires immediately, not
after 30s). -/
theorem idleDefault_doFirst_amended (s : LazyInitState)
    (honce : s.msgsOnceDone = false) (hidle : s.IdleDuration = 0) :
    (doOnceInit s).IdleDuration = 30 * second ∧
    (doOnceInit s).msgsChMade = true ∧
    (submitOnceInit s).msgsChMade = true ∧
    (doOnceInit (doOnceInit s)).IdleDuration = 30 * second ∧
    (submitOnceInit (doOnceInit s)).msgsChMade = true ∧
    (submitOnceInit (doOnceInit s)).IdleDuration = 30 * second ∧
    (doOnceInit (submitOnceInit s)).msgsChMade = true ∧
    (doOnceInit (submitOnceInit s)).IdleDuration = 0 := by
  simp [doOnceInit, submitOnceInit, honce, hidle]

/-- Witness for the amended C4 at the fresh listener state. -/
theorem idleDefault_doFirst_amended_witness :
    (doOnceInit (LazyInitState.mk false false 0)).IdleDuration = 30 * second ∧
      (doOnceInit (submitOnceInit (LazyInitState.mk false false 0))).IdleDuration
        = 0 := by
  have h := idleDefault_doFirst_amended (LazyInitState.mk false false 0) rfl rfl
  exact ⟨h.1, h.2.2.2.2.2.2.2⟩

/-- C8: on the idle-timeout event the loop dispatches exactly one
synthesized InternalMessage with body text "idle" (no sender, no
attachments) to the responders, performs no pre-dispatch Save — the
synthetic message is never persisted — and delivers the resulting
Response through the standard send path to the configured chat (whose
own Save calls record only the transform of a transport confirmation,
never the synthetic message itself). -/
theorem idle_event_dispatch (bots : Message → Response)
    (api : MessageConfig → Except String TgMessage) (cfgChatID : Int) :
    processEvent bots api cfgChatID .idle =
      { dispatched := [{ Message.zero with Text := "idle" }],
        inboundSaved := [],
        send := sendBotResponse api cfgChatID
          (bots { Message.zero with Text := "idle" }) cfgChatID } ∧
    ({ Message.zero with Text := "idle" } : Message).From = User.zero ∧
    ({ Message.zero with Text := "idle" } : Message).Image = none ∧
    ({ Message.zero with Text := "idle" } : Message).Entities = none :=
  ⟨rfl, rfl, rfl, rfl⟩

/-! ### Bounded-history lemmas -/

theorem lastN_length_le {α : Type _} (C : Nat) (xs : List α) :
    (lastN C xs).length ≤ C := by
  simp only [lastN, List.length_drop]
  omega

theorem lastN_nil {α : Type _} (C : Nat) : lastN C ([] : List α) = [] := by
  simp [lastN]

/-- The append-then-conditionally-drop step shared by both Add variants
turns "last C of acc" into "last C of acc ++ [m]". -/
theorem goAppendDrop {α : Type _} (limit : Int) (hlim : 0 ≤ limit)
    (acc : List α) (m : α) :
    (if ((lastN limit.toNat acc ++ [m]).length : Int) > limit
     then (lastN limit.toNat acc ++ [m]).drop 1
     else lastN limit.toNat acc ++ [m]) = lastN limit.toNat (acc ++ [m]) := by
  have hCI : (limit.toNat : Int) = limit := Int.toNat_of_nonneg hlim
  by_cases h : limit.toNat ≤ acc.length
  · have hlen : (lastN limit.toNat acc ++ [m]).length = limit.toNat + 1 := by
      simp only [lastN, List.length_append, List.length_drop,
        List.length_cons, List.length_nil]
      omega
    rw [if_pos (by rw [hlen, ← hCI]; push_cast; omega)]
    rw [lastN, lastN,
      ← List.drop_append_of_le_length (Nat.sub_le acc.length limit.toNat),
      List.drop_drop]
    congr 1
    simp only [List.length_append, List.length_cons, List.length_nil]
    omega
  · have hlen : (lastN limit.toNat acc ++ [m]).length = acc.length + 1 := by
      simp only [lastN, List.length_append, List.length_drop,
        List.length_cons, List.length_nil]
      omega
    rw [if_neg (by rw [hlen, ← hCI]; push_cast; omega)]
    have h1 : acc.length - limit.toNat = 0 := by omega
    have h2 : (acc ++ [m]).length - limit.toNat = 0 := by
      simp only [List.length_append, List.length_cons, List.length_nil]
      omega
    rw [lastN, lastN, h1, h2, List.drop_zero, List.drop_zero]

theorem GlobalHist.Add_limit_global (l : GlobalHist.LimitedMessageHistory)
    (m : Message) : (l.Add m).limit = l.limit := by
  unfold GlobalHist.LimitedMessageHistory.Add
  dsimp only
  split_ifs <;> rfl

theorem GlobalHist.Add_messages (l : GlobalHist.LimitedMessageHistory)
    (m : Message) :
    (l.Add m).messages =
      if ((l.messages ++ [m]).length : Int) > l.limit
      then (l.messages ++ [m]).drop 1
      else l.messages ++ [m] := by
  unfold GlobalHist.LimitedMessageHistory.Add
  dsimp only
  split_ifs <;> rfl

theorem GlobalHist.foldl_Add_lastN_global (limit : Int) (hlim : 0 ≤ limit)
    (msgs : List Message) :
    ∀ (acc : List Message) (l : GlobalHist.LimitedMessageHistory),
      l.limit = limit → l.messages = lastN limit.toNat acc →
      (msgs.foldl GlobalHist.LimitedMessageHistory.Add l).messages
        = lastN limit.toNat (acc ++ msgs) := by
  induction msgs with
  | nil =>
    intro acc l h1 h2
    simpa using h2
  | cons m ms ih =>
    intro acc l h1 h2
    rw [List.foldl_cons]
    have h1' : (l.Add m).limit = limit := by rw [GlobalHist.Add_limit_global, h1]
    have h2' : (l.Add m).messages = lastN limit.toNat (acc ++ [m]) := by
      rw [GlobalHist.Add_messages, h1, h2]
      exact goAppendDrop limit hlim acc m
    have h3 := ih (acc ++ [m]) (l.Add m) h1' h2'
    simpa using h3

theorem PerChat.Add_limit_perChat (l : PerChat.LimitedMessageHistory) (m : Message) :
    (l.Add m).limit = l.limit := rfl

/-- The Add of the per-conversation variant, observed at the inserted
own key of the inserted message: append one entry, then evict exactly the single oldest
entry iff the capacity is exceeded. -/
theorem PerChat.Add_self (l : PerChat.LimitedMessageHistory) (m : Message) :
    (l.Add m).GetMessagesByChatID m.ChatID =
      if ((l.GetMessagesByChatID m.ChatID ++ [m]).length : Int) > l.limit
      then (l.GetMessagesByChatID m.ChatID ++ [m]).drop 1
      else l.GetMessagesByChatID m.ChatID ++ [m] := by
  unfold PerChat.LimitedMessageHistory.Add
    PerChat.LimitedMessageHistory.GetMessagesByChatID
  cases hc : l.chats m.ChatID with
  | none =>
    simp [hc]
    split_ifs <;> rfl
  | some ch =>
    simp [hc]
    split_ifs <;> rfl

/-- The Add of the per-conversation variant leaves the history of every
other key untouched. -/
theorem PerChat.Add_other (l : PerChat.LimitedMessageHistory) (m : Message)
    (k : String) (hk : k ≠ m.ChatID) :
    (l.Add m).GetMessagesByChatID k = l.GetMessagesByChatID k := by
  unfold PerChat.LimitedMessageHistory.Add
    PerChat.LimitedMessageHistory.GetMessagesByChatID
  cases hc : l.chats m.ChatID <;> simp [hc, hk]

theorem PerChat.foldl_Add_lastN_perChat (limit : Int) (hlim : 0 ≤ limit)
    (msgs : List Message) :
    ∀ (l : PerChat.LimitedMessageHistory) (accF : String → List Message),
      l.limit = limit →
      (∀ k, l.GetMessagesByChatID k = lastN limit.toNat (accF k)) →
      ∀ k, (msgs.foldl PerChat.LimitedMessageHistory.Add
        l).GetMessagesByChatID k
        = lastN limit.toNat (accF k ++ msgs.filter fun x => x.ChatID = k) := by
  induction msgs with
  | nil =>
    intro l accF h1 h2 k
    simpa using h2 k
  | cons m ms ih =>
    intro l accF h1 h2 k
    rw [List.foldl_cons]
    have h1' : (l.Add m).limit = limit := by rw [PerChat.Add_limit_perChat, h1]
    have h2' : ∀ k2, (l.Add m).GetMessagesByChatID k2 = lastN limit.toNat
        ((fun k2 => if m.ChatID = k2 then accF k2 ++ [m] else accF k2) k2) := by
      intro k2
      by_cases hk : k2 = m.ChatID
      · rw [hk, PerChat.Add_self, h1, h2 m.ChatID]
        dsimp only
        rw [if_pos rfl]
        exact goAppendDrop limit hlim (accF m.ChatID) m
      · rw [PerChat.Add_other l m k2 hk, h2 k2]
        dsimp only
        rw [if_neg (fun hh => hk hh.symm)]
    have h3 := ih (l.Add m) _ h1' h2' k
    rw [h3]
    congr 1
    dsimp only
    by_cases hk : m.ChatID = k
    · simp [List.filter_cons, hk]
    · simp [List.filter_cons, hk]

/-- C2: for capacity C ≥ 0 and any insertion sequence, the retained
history never exceeds C entries, each insertion appends one entry and
evicts at most the single oldest entry (exactly when capacity is
exceeded), other conversations are untouched, and the retained entries
are exactly the last min(N, C) insertions (for that conversation key in
the per-conversation variant) in original insertion order. -/
theorem history_add_fifo (limit : Int) (hlim : 0 ≤ limit)
    (msgs : List Message) (k : String) :
    ((msgs.foldl PerChat.LimitedMessageHistory.Add
        (PerChat.NewLimitedMessageHistory limit)).GetMessagesByChatID k
      = lastN limit.toNat (msgs.filter fun x => x.ChatID = k)) ∧
    (((msgs.foldl PerChat.LimitedMessageHistory.Add
        (PerChat.NewLimitedMessageHistory limit)).GetMessagesByChatID k).length
      ≤ limit.toNat) ∧
    (∀ (l : PerChat.LimitedMessageHistory) (m : Message),
      (l.Add m).GetMessagesByChatID m.ChatID =
        (if ((l.GetMessagesByChatID m.ChatID ++ [m]).length : Int) > l.limit
         then (l.GetMessagesByChatID m.ChatID ++ [m]).drop 1
         else l.GetMessagesByChatID m.ChatID ++ [m]) ∧
      ∀ k2, k2 ≠ m.ChatID →
        (l.Add m).GetMessagesByChatID k2 = l.GetMessagesByChatID k2) ∧
    ((msgs.foldl GlobalHist.LimitedMessageHistory.Add
        (GlobalHist.NewLimitedMessageHistory limit)).messages
      = lastN limit.toNat msgs) ∧
    ((msgs.foldl GlobalHist.LimitedMessageHistory.Add
        (GlobalHist.NewLimitedMessageHistory limit)).messages).length
      ≤ limit.toNat := by
  have hper : (msgs.foldl PerChat.LimitedMessageHistory.Add
      (PerChat.NewLimitedMessageHistory limit)).GetMessagesByChatID k
      = lastN limit.toNat (msgs.filter fun x => x.ChatID = k) := by
    have h := PerChat.foldl_Add_lastN_perChat limit hlim msgs
      (PerChat.NewLimitedMessageHistory limit) (fun _ => []) rfl
      (fun _ => (lastN_nil limit.toNat).symm) k
    simpa using h
  have hglob : (msgs.foldl GlobalHist.LimitedMessageHistory.Add
      (GlobalHist.NewLimitedMessageHistory limit)).messages
      = lastN limit.toNat msgs := by
    have h := GlobalHist.foldl_Add_lastN_global limit hlim msgs []
      (GlobalHist.NewLimitedMessageHistory limit) rfl
      (lastN_nil limit.toNat).symm
    simpa using h
  refine ⟨hper, ?_, ?_, hglob, ?_⟩
  · rw [hper]
    exact lastN_length_le _ _
  · exact fun l m => ⟨PerChat.Add_self l m, fun k2 hk => PerChat.Add_other l m k2 hk⟩
  · rw [hglob]
    exact lastN_length_le _ _

/-- Witness for C2: four insertions at capacity 2 retain exactly the last
two (of the key, in the per-conversation variant), in order. -/
theorem history_add_fifo_witness :
    (([histMsg 1 "a", histMsg 2 "b", histMsg 3 "a", histMsg 4 "a"].foldl
        PerChat.LimitedMessageHistory.Add
        (PerChat.NewLimitedMessageHistory 2)).GetMessagesByChatID ("a")
      = [histMsg 3 "a", histMsg 4 "a"]) ∧
    (([histMsg 1 "a", histMsg 2 "b", histMsg 3 "a", histMsg 4 "a"].foldl
        GlobalHist.LimitedMessageHistory.Add
        (GlobalHist.NewLimitedMessageHistory 2)).messages
      = [histMsg 3 "a", histMsg 4 "a"]) := by
  have h := history_add_fifo 2 (by decide)
    [histMsg 1 "a", histMsg 2 "b", histMsg 3 "a", histMsg 4 "a"] "a"
  exact ⟨by rw [h.1]; rfl, by rw [h.2.2.2.1]; rfl⟩

/-- C10: retrieving a random message from an empty buffer (or an unknown
conversation key, in the per-conversation variant) yields an explicit
`none`; on a nonempty buffer, with the random index in range as
`rand.Intn` guarantees, it yields one of the currently retained
entries. -/
theorem getRandomMessage_safe :
    (∀ (l : PerChat.LimitedMessageHistory) (k : String) (r : Nat),
      l.GetMessagesByChatID k = [] → l.GetRandomMessage k r = none) ∧
    (∀ (l : PerChat.LimitedMessageHistory) (k : String) (r : Nat),
      r < (l.GetMessagesByChatID k).length →
      ∃ msg, l.GetRandomMessage k r = some msg ∧
        msg ∈ l.GetMessagesByChatID k) ∧
    (∀ (l : GlobalHist.LimitedMessageHistory) (r : Nat),
      l.messages = [] → l.GetRandomMessage r = none) ∧
    (∀ (l : GlobalHist.LimitedMessageHistory) (r : Nat),
      r < l.messages.length →
      ∃ msg, l.GetRandomMessage r = some msg ∧ msg ∈ l.messages) := by
  refine ⟨?_, ?_, ?_, ?_⟩
  · intro l k r h
    cases hc : l.chats k with
    | none => simp [PerChat.LimitedMessageHistory.GetRandomMessage, hc]
    | some ch =>
      have hm : ch.messages = [] := by
        simpa [PerChat.LimitedMessageHistory.GetMessagesByChatID, hc] using h
      simp [PerChat.LimitedMessageHistory.GetRandomMessage, hc, hm]
  · intro l k r hr
    cases hc : l.chats k with
    | none =>
      simp [PerChat.LimitedMessageHistory.GetMessagesByChatID, hc] at hr
    | some ch =>
      have hr' : r < ch.messages.length := by
        simpa [PerChat.LimitedMessageHistory.GetMessagesByChatID, hc] using hr
      have hne : ¬ch.messages.length = 0 := by omega
      refine ⟨ch.messages.get ⟨r, hr'⟩, ?_, ?_⟩
      · simp only [PerChat.LimitedMessageHistory.GetRandomMessage, hc,
          if_neg hne]
        exact List.get?_eq_get hr'
      · simp only [PerChat.LimitedMessageHistory.GetMessagesByChatID, hc]
        exact List.get_mem ch.messages r hr'
  · intro l r h
    unfold GlobalHist.LimitedMessageHistory.GetRandomMessage
    simp [h]
  · intro l r hr
    unfold GlobalHist.LimitedMessageHistory.GetRandomMessage
    rw [if_neg (by omega : ¬l.messages.length = 0)]
    exact ⟨l.messages.get ⟨r, hr⟩, List.get?_eq_get hr,
      List.get_mem l.messages r hr⟩

/-- Witness for C10: empty buffers yield `none`; after one insertion the
retrieval yields a retained entry. -/
theorem getRandomMessage_safe_witness :
    (PerChat.NewLimitedMessageHistory 2).GetRandomMessage ("a") 0 = none ∧
    (∃ msg, ((PerChat.NewLimitedMessageHistory 2).Add
        (histMsg 1 "a")).GetRandomMessage ("a") 0 = some msg ∧
      msg ∈ ((PerChat.NewLimitedMessageHistory 2).Add
        (histMsg 1 "a")).GetMessagesByChatID ("a")) ∧
    (GlobalHist.NewLimitedMessageHistory 2).GetRandomMessage 0 = none ∧
    (∃ msg, ((GlobalHist.NewLimitedMessageHistory 2).Add
        (histMsg 1 "a")).GetRandomMessage 0 = some msg ∧
      msg ∈ ((GlobalHist.NewLimitedMessageHistory 2).Add
        (histMsg 1 "a")).messages) := by
  refine ⟨getRandomMessage_safe.1 _ ("a") 0 rfl,
    getRandomMessage_safe.2.1 _ ("a") 0 (by decide),
    getRandomMessage_safe.2.2.1 _ 0 rfl,
    getRandomMessage_safe.2.2.2 _ 0 (by decide)⟩

end SuperBot
